import Mathlib

/-!
Shallow embedding of `src/lib/ModelViewer.svelte` (harvard-lil/model-viewer):
a Svelte component that loads a 3D model with Babylon.js, assigns default
materials, runs a bounding-box normalization pass (scale-to-fit and
re-center), and wires mount/resize/destroy lifecycle.

Geometry is modelled over ℚ (exact arithmetic stands in for the source's
IEEE doubles; the spec's "within floating-point tolerance" becomes exact
equality).  Engine objects (Babylon `Engine`, `Scene`, meshes, the
`ArcRotateCamera`) are modelled by the fields the component reads and
writes; engine-internal behavior that the component merely invokes
(`zoomOn`) is abstracted by parameters, as documented at its definition.
-/

namespace ModelViewer

/-- A 3-component vector over ℚ, modelling Babylon `Vector3`. -/
@[ext]
structure Vec3 where
  x : ℚ
  y : ℚ
  z : ℚ
deriving DecidableEq

def Vec3.zero : Vec3 := ⟨0, 0, 0⟩

/-- Executable minimum on ℚ (kernel-reducible, unlike the lattice `min`). -/
def qmin (a b : ℚ) : ℚ := if a ≤ b then a else b

/-- Executable maximum on ℚ (kernel-reducible, unlike the lattice `max`);
models JavaScript `Math.max` on (non-NaN) numbers. -/
def qmax (a b : ℚ) : ℚ := if a ≤ b then b else a

theorem qmin_eq_min (a b : ℚ) : qmin a b = min a b := (min_def a b).symm

theorem qmax_eq_max (a b : ℚ) : qmax a b = max a b := (max_def a b).symm

/-- Babylon `Vector3.Center a b` = midpoint of `a` and `b`. -/
def Vec3.center (a b : Vec3) : Vec3 :=
  ⟨(a.x + b.x) / 2, (a.y + b.y) / 2, (a.z + b.z) / 2⟩

/-- Babylon `a.subtract b`, componentwise. -/
def Vec3.sub (a b : Vec3) : Vec3 := ⟨a.x - b.x, a.y - b.y, a.z - b.z⟩

/-- Babylon `v.scale k`, componentwise scalar multiple. -/
def Vec3.scale (v : Vec3) (k : ℚ) : Vec3 := ⟨v.x * k, v.y * k, v.z * k⟩

/-- Componentwise minimum. -/
def Vec3.minV (a b : Vec3) : Vec3 := ⟨qmin a.x b.x, qmin a.y b.y, qmin a.z b.z⟩

/-- Componentwise maximum. -/
def Vec3.maxV (a b : Vec3) : Vec3 := ⟨qmax a.x b.x, qmax a.y b.y, qmax a.z b.z⟩

/-- A mesh material: either one authored in the loaded file (`source`), or a
`StandardMaterial` created by the component (named `defaultMat_i` in the
source, carrying a `diffuseColor`). -/
inductive Material where
  | source (id : ℕ)
  | standard (idx : ℕ) (diffuse : Vec3)
deriving DecidableEq

/-- One mesh of the loaded asset container, with the fields the component
reads and writes: `getTotalVertices()`, `material`, `setEnabled`,
`isVisible`, and its axis-aligned world bounding box (`bmin`/`bmax`)
as it stands after loading (re-parenting under the pivot preserves the
world transform, so these are also its pivot-local bounds). -/
structure Mesh where
  vertices : ℕ
  material : Option Material
  enabled : Bool
  isVisible : Bool
  bmin : Vec3
  bmax : Vec3
deriving DecidableEq

/-- The filter applied at line 79: `m.getTotalVertices() > 0`. -/
def renderable (m : Mesh) : Bool := decide (0 < m.vertices)

/-- The `modelPivot` `TransformNode`: the component writes only its
(uniform) `scaling` and its `position`. -/
@[ext]
structure Pivot where
  scaling : Vec3
  position : Vec3
deriving DecidableEq

/-- A fresh `TransformNode` has scaling `(1,1,1)` and position `(0,0,0)`. -/
def Pivot.identity : Pivot := ⟨⟨1, 1, 1⟩, ⟨0, 0, 0⟩⟩

/-- An axis-aligned bounding box. -/
@[ext]
structure BBox where
  lo : Vec3
  hi : Vec3
deriving DecidableEq

/-- Image of a point under the pivot's transform (scale then translate;
the pivot carries no rotation). -/
def transformPoint (pv : Pivot) (q : Vec3) : Vec3 :=
  ⟨pv.scaling.x * q.x + pv.position.x,
   pv.scaling.y * q.y + pv.position.y,
   pv.scaling.z * q.z + pv.position.z⟩

/-- World bounding box of one mesh under the pivot transform: the AABB of
the two transformed corners. -/
def meshWorldBox (pv : Pivot) (m : Mesh) : BBox :=
  let a := transformPoint pv m.bmin
  let b := transformPoint pv m.bmax
  ⟨Vec3.minV a b, Vec3.maxV a b⟩

def unionBox (a b : BBox) : BBox := ⟨Vec3.minV a.lo b.lo, Vec3.maxV a.hi b.hi⟩

/-- `modelPivot.getHierarchyBoundingVectors(true, m => m.getTotalVertices() > 0)`:
the union of the world boxes of the (renderable) children `m :: ms`. -/
def hierarchyBounds (pv : Pivot) (m : Mesh) (ms : List Mesh) : BBox :=
  ms.foldl (fun acc n => unionBox acc (meshWorldBox pv n)) (meshWorldBox pv m)

def bboxCenter (b : BBox) : Vec3 := Vec3.center b.lo b.hi

def bboxSize (b : BBox) : Vec3 := b.hi.sub b.lo

/-- `Math.max(size.x, Math.max(size.y, size.z))` — the source writes
`Math.max(size.x, size.y, size.z)`. -/
def maxDim (v : Vec3) : ℚ := qmax v.x (qmax v.y v.z)

/-- Lines 95-98: bounds before any pivot transform (each mesh kept its
world transform when re-parented with `setParent(modelPivot, true, true)`,
so the pivot is still the identity here). -/
def preBounds (m : Mesh) (ms : List Mesh) : BBox :=
  hierarchyBounds Pivot.identity m ms

/-- Lines 99-101: `maxDimension` of the pre-scale bounds. -/
def preMaxDimension (m : Mesh) (ms : List Mesh) : ℚ :=
  maxDim (bboxSize (preBounds m ms))

/-- Lines 104-108: `scale = 10 / maxDimension`,
`modelPivot.scaling = (scale, scale, scale)`,
`modelPivot.position = center.scale(-scale)`. -/
def scaledPivot (m : Mesh) (ms : List Mesh) : Pivot :=
  let scale := 10 / preMaxDimension m ms
  { scaling := ⟨scale, scale, scale⟩
    position := (bboxCenter (preBounds m ms)).scale (-scale) }

/-- Lines 111-116: `postMaxDimension`, the max dimension of the hierarchy
bounds recomputed after the pivot transform was set. -/
def postMaxDimension (m : Mesh) (ms : List Mesh) : ℚ :=
  maxDim (bboxSize (hierarchyBounds (scaledPivot m ms) m ms))

/-- The `ArcRotateCamera` fields the component reads or writes. -/
structure CameraState where
  target : Vec3
  radius : ℚ
  lowerRadiusLimit : ℚ
  upperRadiusLimit : ℚ
  wheelDeltaPercentage : ℚ
  panningSensibility : ℚ
  minZ : ℚ
  maxZ : ℚ
  useFramingBehavior : Bool
deriving DecidableEq

/-- The camera as configured at lines 46-59: radius 10, target origin,
radius limits `[0.1, 1000]`, wheel sensitivity 0.01, panning disabled.
The component does not touch the clip planes before the normalization
pass; `minZ = 1`, `maxZ = 10000` are the Babylon `Camera` defaults
(external engine defaults, recorded here only to have a concrete
reachable start state — the clip-plane invariant below is proved for
every start state whose planes are ordered). -/
def initialCamera : CameraState :=
  { target := Vec3.zero
    radius := 10
    lowerRadiusLimit := 1/10
    upperRadiusLimit := 1000
    wheelDeltaPercentage := 1/100
    panningSensibility := 0
    minZ := 1
    maxZ := 10000
    useFramingBehavior := false }

/-- Lines 133-134 and 138-139: `camera.setTarget(Vector3.Zero())`,
`camera.radius = 10`. -/
def fallbackCamera (cam : CameraState) : CameraState :=
  { cam with target := Vec3.zero, radius := 10 }

/-- Lines 118-128: disable framing behavior, target the origin, set
`radius = Math.max(postMaxDimension * 1.5, 3)`,
`upperLimit = Math.max(radius * 4, radius + 5)`, radius limits
`[0.01, upperLimit]`, `minZ = 0.01`, `maxZ = upperRadiusLimit * 5`. -/
def scaledCamera (cam : CameraState) (postMax : ℚ) : CameraState :=
  let radius := qmax (postMax * (3/2)) 3
  let upperLimit := qmax (radius * 4) (radius + 5)
  { cam with
    useFramingBehavior := false
    target := Vec3.zero
    radius := radius
    lowerRadiusLimit := 1/100
    upperRadiusLimit := upperLimit
    minZ := 1/100
    maxZ := upperLimit * 5 }

/-- Lines 130-131: `camera.zoomOn(renderMeshes, true)` followed by
`camera.maxZ = camera.upperRadiusLimit * 5`.  `zoomOn` is an external
engine call (Babylon) that re-points the camera at the meshes' center and
re-derives a radius; with its `doNotUpdateMaxZ` flag set it touches only
`radius` and `target`, never the radius limits.  The engine-computed
radius and target are abstracted as the parameters `zr` and `zt`; the
component then re-applies `maxZ` unconditionally. -/
def zoomOnStep (zr : ℚ) (zt : Vec3) (cam : CameraState) : CameraState :=
  let cam2 := { cam with radius := zr, target := zt }
  { cam2 with maxZ := cam2.upperRadiusLimit * 5 }

/-- Outcome of the normalization pass: the camera state, the pivot node if
one was created, and whether the empty-set warning was logged
(`console.warn` at line 137). -/
structure NormState where
  camera : CameraState
  pivot : Option Pivot
  warned : Bool
deriving DecidableEq

/-- Lines 91-140, the normalization pass.  `container` is
`assetContainer.meshes`; the pass filters it to the renderable meshes
(line 79), and branches on emptiness (line 91) and on
`maxDimension > 0` (line 103). -/
def normalize (container : List Mesh) (zr : ℚ) (zt : Vec3)
    (cam : CameraState) : NormState :=
  match container.filter renderable with
  | [] => { camera := fallbackCamera cam, pivot := none, warned := true }
  | m :: ms =>
    if 0 < preMaxDimension m ms then
      { camera := zoomOnStep zr zt (scaledCamera cam (postMaxDimension m ms))
        pivot := some (scaledPivot m ms)
        warned := false }
    else
      { camera := fallbackCamera cam, pivot := some Pivot.identity, warned := false }

/-- The mesh of the spec's worked example: a single renderable mesh
spanning `(0,0,0)`-`(2,4,2)` with no material. -/
def exMesh : Mesh :=
  { vertices := 3, material := none, enabled := false, isVisible := false
    bmin := ⟨0, 0, 0⟩, bmax := ⟨2, 4, 2⟩ }

example : preMaxDimension exMesh [] = 4 := by
  norm_num [preMaxDimension, maxDim, bboxSize, preBounds, hierarchyBounds,
    meshWorldBox, transformPoint, Pivot.identity, Vec3.minV, Vec3.maxV,
    qmin, qmax, Vec3.sub, exMesh]

example : scaledPivot exMesh [] = ⟨⟨5/2, 5/2, 5/2⟩, ⟨-(5/2), -5, -(5/2)⟩⟩ := by
  norm_num [scaledPivot, preMaxDimension, maxDim, bboxSize, bboxCenter,
    Vec3.center, Vec3.scale, preBounds, hierarchyBounds, meshWorldBox,
    transformPoint, Pivot.identity, Vec3.minV, Vec3.maxV, qmin, qmax,
    Vec3.sub, exMesh]

example : postMaxDimension exMesh [] = 10 := by
  norm_num [postMaxDimension, scaledPivot, preMaxDimension, maxDim, bboxSize,
    bboxCenter, Vec3.center, Vec3.scale, preBounds, hierarchyBounds,
    meshWorldBox, transformPoint, Pivot.identity, Vec3.minV, Vec3.maxV,
    qmin, qmax, Vec3.sub, exMesh]

/-- Lines 80-89, the body of `assetContainer.meshes.forEach`: force-enable
and force-show the mesh; if it has no material, assign a fresh
`StandardMaterial` named `defaultMat_i` with `diffuseColor (0.8, 0.8, 0.8)`. -/
def processMesh (i : ℕ) (m : Mesh) : Mesh :=
  let m2 := { m with enabled := true, isVisible := true }
  match m2.material with
  | some _ => m2
  | none => { m2 with material := some (Material.standard i ⟨4/5, 4/5, 4/5⟩) }

/-- The `forEach` over `assetContainer.meshes` with its running index. -/
def processMeshes : ℕ → List Mesh → List Mesh
  | _, [] => []
  | i, m :: ms => processMesh i m :: processMeshes (i + 1) ms

/-- The component-level mutable handles released by `onDestroy`
(lines 27-31): `handleResize`, `camera`, `engine`, `scene`, each `null`
until activation creates it. -/
structure SessionState where
  handleResize : Option Unit
  camera : Option CameraState
  engine : Option Unit
  scene : Option Unit
deriving DecidableEq

/-- `window.removeEventListener("resize", h)` on a resolved handler; a
member access on a `null` handle in JavaScript raises a `TypeError`,
modelled as `Except.error`. -/
def removeEventListener : Option Unit → Except String Unit
  | none => Except.error "TypeError: null resize handler"
  | some _ => Except.ok ()

/-- `camera.detachControl()`; raises on a `null` camera. -/
def detachControl : Option CameraState → Except String Unit
  | none => Except.error "TypeError: null camera"
  | some _ => Except.ok ()

/-- `engine.dispose()`; raises on a `null` engine. -/
def disposeEngine : Option Unit → Except String Unit
  | none => Except.error "TypeError: null engine"
  | some _ => Except.ok ()

/-- `scene.dispose()`; raises on a `null` scene. -/
def disposeScene : Option Unit → Except String Unit
  | none => Except.error "TypeError: null scene"
  | some _ => Except.ok ()

/-- Which of the four release steps actually ran. -/
structure DestroyLog where
  unsubscribed : Bool
  detached : Bool
  engineDisposed : Bool
  sceneDisposed : Bool
deriving DecidableEq

/-- Lines 153-166, `onDestroy`: four independently null-guarded release
steps.  An unhandled `TypeError` would surface as `Except.error`. -/
def onDestroy (s : SessionState) : Except String DestroyLog := do
  let unsubscribed ← match s.handleResize with
    | some h => do
        let _ ← removeEventListener (some h)
        pure true
    | none => pure false
  let detached ← match s.camera with
    | some c => do
        let _ ← detachControl (some c)
        pure true
    | none => pure false
  let engineDisposed ← match s.engine with
    | some e => do
        let _ ← disposeEngine (some e)
        pure true
    | none => pure false
  let sceneDisposed ← match s.scene with
    | some sc => do
        let _ ← disposeScene (some sc)
        pure true
    | none => pure false
  pure { unsubscribed, detached, engineDisposed, sceneDisposed }

/-- The inputs of one activation (`onMount`, lines 34-151), with the
outcome of each fallible external call abstracted: a `some e` fault means
that call threw/rejected with message `e`.  The fault sites follow the
`await`/engine call structure of the `try` block: engine-and-scene setup
(lines 38-71), `LoadAssetContainerAsync` (line 73), the normalization
pass's engine calls (lines 91-140), and the resize subscription
(lines 142-147).  `zoomRadius`/`zoomTarget` abstract the engine's
`zoomOn` outcome as in `zoomOnStep`. -/
structure ActivationEnv where
  canvasBound : Bool
  modelUrl : String
  engineFault : Option String
  loadFault : Option String
  containerNull : Bool
  container : List Mesh
  normFault : Option String
  subscribeFault : Option String
  zoomRadius : ℚ
  zoomTarget : Vec3
deriving DecidableEq

/-- The component state an activation builds up: the four released
handles plus the scene content the claims mention (lights, scene meshes,
pivot, warning flag) and the `console.error` log. -/
structure MountState where
  engine : Option Unit
  scene : Option Unit
  camera : Option CameraState
  lights : ℕ
  sceneMeshes : List Mesh
  pivot : Option Pivot
  warned : Bool
  handleResize : Option Unit
  logs : List String
deriving DecidableEq

/-- The state before anything is created (all handles `null`). -/
def emptyMount : MountState :=
  { engine := none, scene := none, camera := none, lights := 0
    sceneMeshes := [], pivot := none, warned := false
    handleResize := none, logs := [] }

/-- The state after lines 38-71: engine, scene, configured camera and the
two lights exist; nothing is loaded yet. -/
def setupState : MountState :=
  { emptyMount with
    engine := some (), scene := some (), camera := some initialCamera
    lights := 2 }

/-- The body of the `try` block (lines 38-147) as a state-and-error pair:
the `MountState` reached, and `some e` when a step threw `e` there.
Each fault leaves exactly the state built before it (the component's
handles are assigned in place as the body runs). -/
def activationSteps (env : ActivationEnv) : MountState × Option String :=
  match env.engineFault with
  | some e => (emptyMount, some e)
  | none =>
    match env.loadFault with
    | some e => (setupState, some e)
    | none =>
      if env.containerNull then (setupState, some "Failed to load asset container")
      else
        let loaded := { setupState with sceneMeshes := processMeshes 0 env.container }
        match env.normFault with
        | some e => (loaded, some e)
        | none =>
          let ns := normalize (processMeshes 0 env.container)
            env.zoomRadius env.zoomTarget initialCamera
          let framed := { loaded with
            camera := some ns.camera, pivot := ns.pivot, warned := ns.warned }
          match env.subscribeFault with
          | some e => (framed, some e)
          | none => ({ framed with handleResize := some () }, none)

/-- Lines 34-151, `onMount`: the early return at line 35 (`!canvasElement
|| !modelUrl`; the empty string is falsy), then the `try` body, with the
single `catch` (lines 148-150) turning any thrown error into a
`console.error` entry on the state reached — never a propagated
exception, hence a total function into `MountState`. -/
def onMount (env : ActivationEnv) : MountState :=
  if env.canvasBound = false ∨ env.modelUrl = "" then emptyMount
  else
    match activationSteps env with
    | (st, none) => st
    | (st, some e) => { st with logs := st.logs ++ ["Error loading model: " ++ e] }

theorem min_smul_add (s p a b : ℚ) (hs : 0 ≤ s) :
    min (s * a + p) (s * b + p) = s * min a b + p := by
  rcases le_total a b with h | h
  · rw [min_eq_left (by nlinarith), min_eq_left h]
  · rw [min_eq_right (by nlinarith), min_eq_right h]

theorem max_smul_add (s p a b : ℚ) (hs : 0 ≤ s) :
    max (s * a + p) (s * b + p) = s * max a b + p := by
  rcases le_total a b with h | h
  · rw [max_eq_right (by nlinarith), max_eq_right h]
  · rw [max_eq_left (by nlinarith), max_eq_left h]

theorem max_smul (s a b : ℚ) (hs : 0 ≤ s) : max (s * a) (s * b) = s * max a b := by
  have h := max_smul_add s 0 a b hs
  simpa using h

/-- A mesh's world box under a uniform-scale-and-translate pivot is the
image of its identity-pivot box, corner by corner (for nonnegative scale). -/
theorem meshWorldBox_uniform (s : ℚ) (p : Vec3) (hs : 0 ≤ s) (m : Mesh) :
    meshWorldBox ⟨⟨s, s, s⟩, p⟩ m =
      ⟨transformPoint ⟨⟨s, s, s⟩, p⟩ (meshWorldBox Pivot.identity m).lo,
       transformPoint ⟨⟨s, s, s⟩, p⟩ (meshWorldBox Pivot.identity m).hi⟩ := by
  simp only [meshWorldBox, transformPoint, Pivot.identity, Vec3.minV, Vec3.maxV,
    qmin_eq_min, qmax_eq_max, one_mul, add_zero, BBox.mk.injEq, Vec3.mk.injEq]
  exact ⟨⟨min_smul_add s p.x _ _ hs, min_smul_add s p.y _ _ hs,
          min_smul_add s p.z _ _ hs⟩,
         ⟨max_smul_add s p.x _ _ hs, max_smul_add s p.y _ _ hs,
          max_smul_add s p.z _ _ hs⟩⟩

theorem unionBox_transform (s : ℚ) (p : Vec3) (hs : 0 ≤ s) (a b : BBox) :
    unionBox ⟨transformPoint ⟨⟨s, s, s⟩, p⟩ a.lo, transformPoint ⟨⟨s, s, s⟩, p⟩ a.hi⟩
        ⟨transformPoint ⟨⟨s, s, s⟩, p⟩ b.lo, transformPoint ⟨⟨s, s, s⟩, p⟩ b.hi⟩ =
      ⟨transformPoint ⟨⟨s, s, s⟩, p⟩ (unionBox a b).lo,
       transformPoint ⟨⟨s, s, s⟩, p⟩ (unionBox a b).hi⟩ := by
  simp only [unionBox, transformPoint, Vec3.minV, Vec3.maxV,
    qmin_eq_min, qmax_eq_max, BBox.mk.injEq, Vec3.mk.injEq]
  exact ⟨⟨min_smul_add s p.x _ _ hs, min_smul_add s p.y _ _ hs,
          min_smul_add s p.z _ _ hs⟩,
         ⟨max_smul_add s p.x _ _ hs, max_smul_add s p.y _ _ hs,
          max_smul_add s p.z _ _ hs⟩⟩

theorem foldl_union_transform (s : ℚ) (p : Vec3) (hs : 0 ≤ s) (ms : List Mesh)
    (b : BBox) :
    ms.foldl (fun acc n => unionBox acc (meshWorldBox ⟨⟨s, s, s⟩, p⟩ n))
        ⟨transformPoint ⟨⟨s, s, s⟩, p⟩ b.lo, transformPoint ⟨⟨s, s, s⟩, p⟩ b.hi⟩ =
      ⟨transformPoint ⟨⟨s, s, s⟩, p⟩
        (ms.foldl (fun acc n => unionBox acc (meshWorldBox Pivot.identity n)) b).lo,
       transformPoint ⟨⟨s, s, s⟩, p⟩
        (ms.foldl (fun acc n => unionBox acc (meshWorldBox Pivot.identity n)) b).hi⟩ := by
  induction ms generalizing b with
  | nil => rfl
  | cons n ns ih =>
    simp only [List.foldl_cons]
    rw [meshWorldBox_uniform s p hs n, unionBox_transform s p hs, ih]

/-- The hierarchy bounds under a uniform-scale-and-translate pivot are the
transformed pre-transform bounds (for nonnegative scale). -/
theorem hierarchyBounds_uniform (s : ℚ) (p : Vec3) (hs : 0 ≤ s) (m : Mesh)
    (ms : List Mesh) :
    hierarchyBounds ⟨⟨s, s, s⟩, p⟩ m ms =
      ⟨transformPoint ⟨⟨s, s, s⟩, p⟩ (preBounds m ms).lo,
       transformPoint ⟨⟨s, s, s⟩, p⟩ (preBounds m ms).hi⟩ := by
  unfold hierarchyBounds preBounds hierarchyBounds
  rw [meshWorldBox_uniform s p hs m]
  exact foldl_union_transform s p hs ms (meshWorldBox Pivot.identity m)

theorem bboxSize_uniform (s : ℚ) (p : Vec3) (hs : 0 ≤ s) (m : Mesh)
    (ms : List Mesh) :
    bboxSize (hierarchyBounds ⟨⟨s, s, s⟩, p⟩ m ms) =
      ⟨s * (bboxSize (preBounds m ms)).x, s * (bboxSize (preBounds m ms)).y,
       s * (bboxSize (preBounds m ms)).z⟩ := by
  rw [hierarchyBounds_uniform s p hs]
  simp only [bboxSize, Vec3.sub, transformPoint]
  apply Vec3.ext <;> dsimp <;> ring

theorem bboxCenter_uniform (s : ℚ) (p : Vec3) (hs : 0 ≤ s) (m : Mesh)
    (ms : List Mesh) :
    bboxCenter (hierarchyBounds ⟨⟨s, s, s⟩, p⟩ m ms) =
      ⟨s * (bboxCenter (preBounds m ms)).x + p.x,
       s * (bboxCenter (preBounds m ms)).y + p.y,
       s * (bboxCenter (preBounds m ms)).z + p.z⟩ := by
  rw [hierarchyBounds_uniform s p hs]
  simp only [bboxCenter, Vec3.center, transformPoint]
  apply Vec3.ext <;> dsimp <;> ring

theorem maxDim_smul (s : ℚ) (hs : 0 ≤ s) (v : Vec3) :
    maxDim ⟨s * v.x, s * v.y, s * v.z⟩ = s * maxDim v := by
  simp only [maxDim, qmax_eq_max]
  rw [max_smul s v.y v.z hs, max_smul s v.x _ hs]

/-- The scale written by the scaled branch is nonnegative whenever the
pre-scale max dimension is positive. -/
theorem scale_nonneg {m : Mesh} {ms : List Mesh}
    (hpos : 0 < preMaxDimension m ms) : 0 ≤ 10 / preMaxDimension m ms :=
  div_nonneg (by norm_num) hpos.le

/-- Under the scaled pivot, the post-transform max dimension is exactly 10. -/
theorem postMaxDimension_eq_ten (m : Mesh) (ms : List Mesh)
    (hpos : 0 < preMaxDimension m ms) : postMaxDimension m ms = 10 := by
  have hs := scale_nonneg hpos
  unfold postMaxDimension
  rw [show scaledPivot m ms =
      ⟨⟨10 / preMaxDimension m ms, 10 / preMaxDimension m ms,
        10 / preMaxDimension m ms⟩,
       (bboxCenter (preBounds m ms)).scale (-(10 / preMaxDimension m ms))⟩ from rfl]
  rw [bboxSize_uniform _ _ hs, maxDim_smul _ hs]
  exact div_mul_cancel₀ 10 (ne_of_gt hpos)

/-- Under the scaled pivot, the post-transform bounding-box center is the
world origin. -/
theorem postCenter_eq_zero (m : Mesh) (ms : List Mesh)
    (hpos : 0 < preMaxDimension m ms) :
    bboxCenter (hierarchyBounds (scaledPivot m ms) m ms) = Vec3.zero := by
  have hs := scale_nonneg hpos
  rw [show scaledPivot m ms =
      ⟨⟨10 / preMaxDimension m ms, 10 / preMaxDimension m ms,
        10 / preMaxDimension m ms⟩,
       (bboxCenter (preBounds m ms)).scale (-(10 / preMaxDimension m ms))⟩ from rfl]
  rw [bboxCenter_uniform _ _ hs]
  simp only [Vec3.scale, Vec3.zero]
  apply Vec3.ext <;> dsimp <;> ring

/-- Branch reduction: nonempty renderable set with positive max dimension
takes the scaled branch. -/
theorem normalize_of_pos (container : List Mesh) (m : Mesh) (ms : List Mesh)
    (zr : ℚ) (zt : Vec3) (cam : CameraState)
    (h : container.filter renderable = m :: ms)
    (hpos : 0 < preMaxDimension m ms) :
    normalize container zr zt cam =
      { camera := zoomOnStep zr zt (scaledCamera cam (postMaxDimension m ms))
        pivot := some (scaledPivot m ms)
        warned := false } := by
  unfold normalize
  rw [h]
  dsimp only
  rw [if_pos hpos]

/-- Branch reduction: empty renderable set takes the warning branch. -/
theorem normalize_of_empty (container : List Mesh) (zr : ℚ) (zt : Vec3)
    (cam : CameraState) (h : container.filter renderable = []) :
    normalize container zr zt cam =
      { camera := fallbackCamera cam, pivot := none, warned := true } := by
  unfold normalize
  rw [h]

/-- Branch reduction: nonempty renderable set with zero max dimension
skips the scaling step. -/
theorem normalize_of_zero (container : List Mesh) (m : Mesh) (ms : List Mesh)
    (zr : ℚ) (zt : Vec3) (cam : CameraState)
    (h : container.filter renderable = m :: ms)
    (h0 : preMaxDimension m ms = 0) :
    normalize container zr zt cam =
      { camera := fallbackCamera cam, pivot := some Pivot.identity
        warned := false } := by
  unfold normalize
  rw [h]
  dsimp only
  rw [if_neg (by rw [h0]; exact lt_irrefl 0)]

/-- The mesh set of all-coincident points used as a counterexample: one
renderable mesh whose bounding box is the single point `(5,5,5)`. -/
def pointMesh : Mesh :=
  { vertices := 1, material := none, enabled := false, isVisible := false
    bmin := ⟨5, 5, 5⟩, bmax := ⟨5, 5, 5⟩ }

/-- C1: for every non-empty renderable mesh set whose pre-scale
bounding-box max dimension is positive, the normalization pass sets the
pivot's uniform scale to `10 / maxDimension`, and the pivot's post-scale
bounding-box max dimension is exactly 10. -/
theorem claim_C1 (container : List Mesh) (m : Mesh) (ms : List Mesh)
    (zr : ℚ) (zt : Vec3) (cam : CameraState)
    (hne : container.filter renderable = m :: ms)
    (hpos : 0 < preMaxDimension m ms) :
    (normalize container zr zt cam).pivot = some (scaledPivot m ms) ∧
    (scaledPivot m ms).scaling =
      ⟨10 / preMaxDimension m ms, 10 / preMaxDimension m ms,
       10 / preMaxDimension m ms⟩ ∧
    maxDim (bboxSize (hierarchyBounds (scaledPivot m ms) m ms)) = 10 := by
  refine ⟨?_, rfl, ?_⟩
  · rw [normalize_of_pos container m ms zr zt cam hne hpos]
  · have h := postMaxDimension_eq_ten m ms hpos
    unfold postMaxDimension at h
    exact h

/-- C1 witness: the single example mesh spanning `(0,0,0)`-`(2,4,2)`. -/
theorem claim_C1_witness :
    (normalize [exMesh] 0 Vec3.zero initialCamera).pivot =
      some (scaledPivot exMesh []) ∧
    (scaledPivot exMesh []).scaling =
      ⟨10 / preMaxDimension exMesh [], 10 / preMaxDimension exMesh [],
       10 / preMaxDimension exMesh []⟩ ∧
    maxDim (bboxSize (hierarchyBounds (scaledPivot exMesh []) exMesh [])) = 10 :=
  claim_C1 [exMesh] exMesh [] 0 Vec3.zero initialCamera rfl
    (by norm_num [preMaxDimension, maxDim, bboxSize, preBounds, hierarchyBounds,
      meshWorldBox, transformPoint, Pivot.identity, Vec3.minV, Vec3.maxV,
      qmin, qmax, Vec3.sub, exMesh])

/-- C2 counterexample: a single renderable mesh that is a coincident point
at `(5,5,5)` is processed by the normalization pass (a pivot exists), but
nothing sets the pivot's position — the pivot stays the identity — and
the post-scale bounding-box center is `(5,5,5)`, not the origin.  The
claim's "for any renderable mesh set" is therefore false; it holds only
when the pre-scale max dimension is positive. -/
theorem claim_C2_counterexample :
    (normalize [pointMesh] 0 Vec3.zero initialCamera).pivot =
      some Pivot.identity ∧
    Pivot.identity.position = Vec3.zero ∧
    bboxCenter (hierarchyBounds Pivot.identity pointMesh []) = ⟨5, 5, 5⟩ ∧
    (⟨5, 5, 5⟩ : Vec3) ≠ Vec3.zero := by
  have h0 : preMaxDimension pointMesh [] = 0 := by
    norm_num [preMaxDimension, maxDim, bboxSize, preBounds, hierarchyBounds,
      meshWorldBox, transformPoint, Pivot.identity, Vec3.minV, Vec3.maxV,
      qmin, qmax, Vec3.sub, pointMesh]
  refine ⟨?_, rfl, ?_, ?_⟩
  · rw [normalize_of_zero [pointMesh] pointMesh [] 0 Vec3.zero initialCamera rfl h0]
  · norm_num [bboxCenter, Vec3.center, hierarchyBounds, meshWorldBox,
      transformPoint, Pivot.identity, Vec3.minV, Vec3.maxV, qmin, qmax,
      pointMesh]
  · intro h
    have hx := congrArg Vec3.x h
    norm_num [Vec3.zero] at hx

/-- C2 (amended): for every non-empty renderable mesh set whose pre-scale
max dimension is positive, the pivot's position is set to
`−(center × scale)`, and the post-scale bounding-box center is the world
origin. -/
theorem claim_C2_amended (container : List Mesh) (m : Mesh) (ms : List Mesh)
    (zr : ℚ) (zt : Vec3) (cam : CameraState)
    (hne : container.filter renderable = m :: ms)
    (hpos : 0 < preMaxDimension m ms) :
    (normalize container zr zt cam).pivot = some (scaledPivot m ms) ∧
    (scaledPivot m ms).position =
      (bboxCenter (preBounds m ms)).scale (-(10 / preMaxDimension m ms)) ∧
    bboxCenter (hierarchyBounds (scaledPivot m ms) m ms) = Vec3.zero := by
  refine ⟨?_, rfl, postCenter_eq_zero m ms hpos⟩
  rw [normalize_of_pos container m ms zr zt cam hne hpos]

/-- C2 witness: the example mesh again. -/
theorem claim_C2_witness :
    (normalize [exMesh] 0 Vec3.zero initialCamera).pivot =
      some (scaledPivot exMesh []) ∧
    (scaledPivot exMesh []).position =
      (bboxCenter (preBounds exMesh [])).scale
        (-(10 / preMaxDimension exMesh [])) ∧
    bboxCenter (hierarchyBounds (scaledPivot exMesh []) exMesh []) =
      Vec3.zero :=
  claim_C2_amended [exMesh] exMesh [] 0 Vec3.zero initialCamera rfl
    (by norm_num [preMaxDimension, maxDim, bboxSize, preBounds, hierarchyBounds,
      meshWorldBox, transformPoint, Pivot.identity, Vec3.minV, Vec3.maxV,
      qmin, qmax, Vec3.sub, exMesh])

/-- C3: in the scaled branch the camera handed to `zoomOn` has radius
`max(postMaxDimension × 1.5, 3)` (the final camera is that state adjusted
by `zoomOn` and the re-applied far plane); in particular, on the single
example mesh spanning `(0,0,0)`-`(2,4,2)` the pivot scale is `2.5`, the
pivot position is `(−2.5, −5, −2.5)`, and the set radius is `15`. -/
theorem claim_C3 (container : List Mesh) (m : Mesh) (ms : List Mesh)
    (zr : ℚ) (zt : Vec3) (cam : CameraState)
    (hne : container.filter renderable = m :: ms)
    (hpos : 0 < preMaxDimension m ms) :
    (normalize container zr zt cam).camera =
      zoomOnStep zr zt (scaledCamera cam (postMaxDimension m ms)) ∧
    (scaledCamera cam (postMaxDimension m ms)).radius =
      qmax (postMaxDimension m ms * (3/2)) 3 ∧
    scaledPivot exMesh [] = ⟨⟨5/2, 5/2, 5/2⟩, ⟨-(5/2), -5, -(5/2)⟩⟩ ∧
    (normalize [exMesh] zr zt cam).pivot = some (scaledPivot exMesh []) ∧
    (scaledCamera cam (postMaxDimension exMesh [])).radius = 15 := by
  have hex : preMaxDimension exMesh [] = 4 := by
    norm_num [preMaxDimension, maxDim, bboxSize, preBounds, hierarchyBounds,
      meshWorldBox, transformPoint, Pivot.identity, Vec3.minV, Vec3.maxV,
      qmin, qmax, Vec3.sub, exMesh]
  have hexpos : 0 < preMaxDimension exMesh [] := by rw [hex]; norm_num
  refine ⟨?_, rfl, ?_, ?_, ?_⟩
  · rw [normalize_of_pos container m ms zr zt cam hne hpos]
  · norm_num [scaledPivot, preMaxDimension, maxDim, bboxSize, bboxCenter,
      Vec3.center, Vec3.scale, preBounds, hierarchyBounds, meshWorldBox,
      transformPoint, Pivot.identity, Vec3.minV, Vec3.maxV, qmin, qmax,
      Vec3.sub, exMesh]
  · rw [normalize_of_pos [exMesh] exMesh [] zr zt cam rfl hexpos]
  · have hpm := postMaxDimension_eq_ten exMesh [] hexpos
    show qmax (postMaxDimension exMesh [] * (3/2)) 3 = 15
    rw [hpm]
    norm_num [qmax]

/-- C3 witness: the example mesh with an arbitrary `zoomOn` outcome. -/
theorem claim_C3_witness :
    (normalize [exMesh] 0 Vec3.zero initialCamera).camera =
      zoomOnStep 0 Vec3.zero
        (scaledCamera initialCamera (postMaxDimension exMesh [])) ∧
    (scaledCamera initialCamera (postMaxDimension exMesh [])).radius =
      qmax (postMaxDimension exMesh [] * (3/2)) 3 ∧
    scaledPivot exMesh [] = ⟨⟨5/2, 5/2, 5/2⟩, ⟨-(5/2), -5, -(5/2)⟩⟩ ∧
    (normalize [exMesh] 0 Vec3.zero initialCamera).pivot =
      some (scaledPivot exMesh []) ∧
    (scaledCamera initialCamera (postMaxDimension exMesh [])).radius = 15 :=
  claim_C3 [exMesh] exMesh [] 0 Vec3.zero initialCamera rfl
    (by norm_num [preMaxDimension, maxDim, bboxSize, preBounds, hierarchyBounds,
      meshWorldBox, transformPoint, Pivot.identity, Vec3.minV, Vec3.maxV,
      qmin, qmax, Vec3.sub, exMesh])

/-- C4: in every reachable outcome of the normalization pass (scaled,
zero-max-dimension, and empty branches, starting from any camera whose
limits and clip planes are ordered, as the component's are), the lower
radius limit stays at most the upper radius limit and the near clip plane
stays at most the far clip plane. -/
theorem claim_C4 (container : List Mesh) (zr : ℚ) (zt : Vec3)
    (cam : CameraState)
    (h1 : cam.lowerRadiusLimit ≤ cam.upperRadiusLimit)
    (h2 : cam.minZ ≤ cam.maxZ) :
    (normalize container zr zt cam).camera.lowerRadiusLimit ≤
      (normalize container zr zt cam).camera.upperRadiusLimit ∧
    (normalize container zr zt cam).camera.minZ ≤
      (normalize container zr zt cam).camera.maxZ := by
  unfold normalize
  split
  · exact ⟨h1, h2⟩
  · rename_i m ms heq
    split
    · rename_i hpos
      have h3 : (3 : ℚ) ≤ max (postMaxDimension m ms * (3/2)) 3 :=
        le_max_right _ _
      have h4 : max (postMaxDimension m ms * (3/2)) 3 + 5 ≤
          max (max (postMaxDimension m ms * (3/2)) 3 * 4)
            (max (postMaxDimension m ms * (3/2)) 3 + 5) := le_max_right _ _
      constructor
      · show (1 : ℚ)/100 ≤ qmax (qmax (postMaxDimension m ms * (3/2)) 3 * 4)
          (qmax (postMaxDimension m ms * (3/2)) 3 + 5)
        rw [qmax_eq_max, qmax_eq_max]
        linarith
      · show (1 : ℚ)/100 ≤ qmax (qmax (postMaxDimension m ms * (3/2)) 3 * 4)
          (qmax (postMaxDimension m ms * (3/2)) 3 + 5) * 5
        rw [qmax_eq_max, qmax_eq_max]
        linarith
    · exact ⟨h1, h2⟩

/-- C4 witness: the empty container from the component's start camera. -/
theorem claim_C4_witness :
    (normalize [] 0 Vec3.zero initialCamera).camera.lowerRadiusLimit ≤
      (normalize [] 0 Vec3.zero initialCamera).camera.upperRadiusLimit ∧
    (normalize [] 0 Vec3.zero initialCamera).camera.minZ ≤
      (normalize [] 0 Vec3.zero initialCamera).camera.maxZ :=
  claim_C4 [] 0 Vec3.zero initialCamera (by norm_num [initialCamera])
    (by norm_num [initialCamera])

/-- C5: on an empty renderable mesh set the normalization pass logs the
warning, re-targets the camera to the origin at radius 10, and creates no
pivot (so no pivot scaling happens). -/
theorem claim_C5 (container : List Mesh) (zr : ℚ) (zt : Vec3)
    (cam : CameraState) (h : container.filter renderable = []) :
    normalize container zr zt cam =
      { camera := fallbackCamera cam, pivot := none, warned := true } ∧
    (normalize container zr zt cam).warned = true ∧
    (normalize container zr zt cam).camera.target = Vec3.zero ∧
    (normalize container zr zt cam).camera.radius = 10 ∧
    (normalize container zr zt cam).pivot = none := by
  have hn := normalize_of_empty container zr zt cam h
  exact ⟨hn, by rw [hn], by rw [hn]; rfl, by rw [hn]; rfl, by rw [hn]⟩

/-- C5 witness: a container holding only a zero-vertex mesh. -/
theorem claim_C5_witness :
    normalize [{ vertices := 0, material := none, enabled := false
                 isVisible := false, bmin := ⟨0, 0, 0⟩, bmax := ⟨1, 1, 1⟩ }]
        0 Vec3.zero initialCamera =
      { camera := fallbackCamera initialCamera, pivot := none
        warned := true } ∧
    (normalize [{ vertices := 0, material := none, enabled := false
                  isVisible := false, bmin := ⟨0, 0, 0⟩, bmax := ⟨1, 1, 1⟩ }]
        0 Vec3.zero initialCamera).warned = true ∧
    (normalize [{ vertices := 0, material := none, enabled := false
                  isVisible := false, bmin := ⟨0, 0, 0⟩, bmax := ⟨1, 1, 1⟩ }]
        0 Vec3.zero initialCamera).camera.target = Vec3.zero ∧
    (normalize [{ vertices := 0, material := none, enabled := false
                  isVisible := false, bmin := ⟨0, 0, 0⟩, bmax := ⟨1, 1, 1⟩ }]
        0 Vec3.zero initialCamera).camera.radius = 10 ∧
    (normalize [{ vertices := 0, material := none, enabled := false
                  isVisible := false, bmin := ⟨0, 0, 0⟩, bmax := ⟨1, 1, 1⟩ }]
        0 Vec3.zero initialCamera).pivot = none :=
  claim_C5 [{ vertices := 0, material := none, enabled := false
              isVisible := false, bmin := ⟨0, 0, 0⟩, bmax := ⟨1, 1, 1⟩ }]
    0 Vec3.zero initialCamera rfl

/-- C6: a non-empty renderable mesh set of coincident points (pre-scale
max dimension 0) skips the scaling step — the division `10 / maxDimension`
is never evaluated, the pivot keeps the default transform — and the
camera targets the origin at radius 10. -/
theorem claim_C6 (container : List Mesh) (m : Mesh) (ms : List Mesh)
    (zr : ℚ) (zt : Vec3) (cam : CameraState)
    (h : container.filter renderable = m :: ms)
    (h0 : preMaxDimension m ms = 0) :
    normalize container zr zt cam =
      { camera := fallbackCamera cam, pivot := some Pivot.identity
        warned := false } ∧
    (normalize container zr zt cam).pivot = some Pivot.identity ∧
    Pivot.identity.scaling = ⟨1, 1, 1⟩ ∧
    (normalize container zr zt cam).camera.target = Vec3.zero ∧
    (normalize container zr zt cam).camera.radius = 10 := by
  have hn := normalize_of_zero container m ms zr zt cam h h0
  exact ⟨hn, by rw [hn], rfl, by rw [hn]; rfl, by rw [hn]; rfl⟩

/-- C6 witness: the coincident-point mesh at `(5,5,5)`. -/
theorem claim_C6_witness :
    normalize [pointMesh] 0 Vec3.zero initialCamera =
      { camera := fallbackCamera initialCamera, pivot := some Pivot.identity
        warned := false } ∧
    (normalize [pointMesh] 0 Vec3.zero initialCamera).pivot =
      some Pivot.identity ∧
    Pivot.identity.scaling = ⟨1, 1, 1⟩ ∧
    (normalize [pointMesh] 0 Vec3.zero initialCamera).camera.target =
      Vec3.zero ∧
    (normalize [pointMesh] 0 Vec3.zero initialCamera).camera.radius = 10 :=
  claim_C6 [pointMesh] pointMesh [] 0 Vec3.zero initialCamera rfl
    (by norm_num [preMaxDimension, maxDim, bboxSize, preBounds, hierarchyBounds,
      meshWorldBox, transformPoint, Pivot.identity, Vec3.minV, Vec3.maxV,
      qmin, qmax, Vec3.sub, pointMesh])

theorem processMeshes_getElem (ms : List Mesh) (i j : ℕ) :
    (processMeshes i ms)[j]? = (ms[j]?).map (processMesh (i + j)) := by
  induction ms generalizing i j with
  | nil => simp [processMeshes]
  | cons m tl ih =>
    cases j with
    | zero => simp [processMeshes]
    | succ j =>
      simp only [processMeshes, List.getElem?_cons_succ]
      rw [ih (i + 1) j]
      have h : i + 1 + j = i + (j + 1) := by omega
      rw [h]

/-- C7: after the merge, every mesh of the asset container (whatever its
vertex count) is enabled and visible; a mesh with no material receives the
default `StandardMaterial` with diffuse `(0.8, 0.8, 0.8)`, and a mesh
with a material keeps it. -/
theorem claim_C7 (container : List Mesh) (j : ℕ) (m : Mesh)
    (h : container[j]? = some m) :
    (processMeshes 0 container)[j]? = some (processMesh j m) ∧
    (processMesh j m).enabled = true ∧
    (processMesh j m).isVisible = true ∧
    (m.material = none →
      (processMesh j m).material =
        some (Material.standard j ⟨4/5, 4/5, 4/5⟩)) ∧
    (∀ mat, m.material = some mat → (processMesh j m).material = some mat) := by
  refine ⟨?_, ?_, ?_, ?_, ?_⟩
  · rw [processMeshes_getElem, h]
    simp
  · cases hm : m.material <;> simp [processMesh, hm]
  · cases hm : m.material <;> simp [processMesh, hm]
  · intro hm
    simp [processMesh, hm]
  · intro mat hm
    simp [processMesh, hm]

/-- C7 witness: a two-mesh container, one mesh without material, one with. -/
theorem claim_C7_witness :
    (processMeshes 0 [exMesh, { exMesh with material := some (Material.source 7) }])[0]? =
      some (processMesh 0 exMesh) ∧
    (processMesh 0 exMesh).enabled = true ∧
    (processMesh 0 exMesh).isVisible = true ∧
    (exMesh.material = none →
      (processMesh 0 exMesh).material =
        some (Material.standard 0 ⟨4/5, 4/5, 4/5⟩)) ∧
    (∀ mat, exMesh.material = some mat →
      (processMesh 0 exMesh).material = some mat) :=
  claim_C7 [exMesh, { exMesh with material := some (Material.source 7) }]
    0 exMesh rfl

/-- C8: deactivation releases exactly the resources that exist, each under
its own null guard, and never raises — in particular it is safe when no
resource was ever created, and a missing resource never blocks the
release of the others. -/
theorem claim_C8 (s : SessionState) :
    onDestroy s = Except.ok
      { unsubscribed := s.handleResize.isSome
        detached := s.camera.isSome
        engineDisposed := s.engine.isSome
        sceneDisposed := s.scene.isSome } := by
  obtain ⟨hr, c, e, sc⟩ := s
  cases hr <;> cases c <;> cases e <;> cases sc <;> rfl

/-- C9: inside an entered activation, an error thrown at any step of the
`try` body is caught by the single outer handler and only appended to the
log, with the state kept exactly as reached at the fault — never a
propagated exception — and a fault-free run installs the resize handler
with an empty log. -/
theorem claim_C9 (env : ActivationEnv) (hc : env.canvasBound = true)
    (hu : env.modelUrl ≠ "") :
    (∀ st e, activationSteps env = (st, some e) →
      onMount env = { st with logs := st.logs ++ ["Error loading model: " ++ e] }) ∧
    (∀ st, activationSteps env = (st, none) → onMount env = st) ∧
    (∀ e, env.engineFault = some e →
      onMount env = { emptyMount with logs := ["Error loading model: " ++ e] }) ∧
    (∀ e, env.engineFault = none → env.loadFault = some e →
      onMount env = { setupState with logs := ["Error loading model: " ++ e] }) ∧
    (env.engineFault = none → env.loadFault = none →
      env.containerNull = false → env.normFault = none →
      env.subscribeFault = none →
      (onMount env).handleResize = some () ∧ (onMount env).logs = []) := by
  have hif : ¬(env.canvasBound = false ∨ env.modelUrl = "") := by
    rw [hc]
    simp [hu]
  refine ⟨?_, ?_, ?_, ?_, ?_⟩
  · intro st e hst
    unfold onMount
    rw [if_neg hif, hst]
  · intro st hst
    unfold onMount
    rw [if_neg hif, hst]
  · intro e he
    unfold onMount activationSteps
    rw [if_neg hif, he]
    rfl
  · intro e he hl
    unfold onMount activationSteps
    rw [if_neg hif, he, hl]
    rfl
  · intro h1 h2 h3 h4 h5
    unfold onMount activationSteps
    rw [if_neg hif, h1, h2, h3, h4, h5]
    exact ⟨rfl, rfl⟩

/-- C9 witness: an entered activation whose engine creation throws. -/
theorem claim_C9_witness :
    (∀ st e, activationSteps
        { canvasBound := true, modelUrl := "model.glb"
          engineFault := some "boom", loadFault := none
          containerNull := false, container := [], normFault := none
          subscribeFault := none, zoomRadius := 0
          zoomTarget := Vec3.zero } = (st, some e) →
      onMount
        { canvasBound := true, modelUrl := "model.glb"
          engineFault := some "boom", loadFault := none
          containerNull := false, container := [], normFault := none
          subscribeFault := none, zoomRadius := 0
          zoomTarget := Vec3.zero } =
        { st with logs := st.logs ++ ["Error loading model: " ++ e] }) ∧
    (∀ st, activationSteps
        { canvasBound := true, modelUrl := "model.glb"
          engineFault := some "boom", loadFault := none
          containerNull := false, container := [], normFault := none
          subscribeFault := none, zoomRadius := 0
          zoomTarget := Vec3.zero } = (st, none) →
      onMount
        { canvasBound := true, modelUrl := "model.glb"
          engineFault := some "boom", loadFault := none
          containerNull := false, container := [], normFault := none
          subscribeFault := none, zoomRadius := 0
          zoomTarget := Vec3.zero } = st) ∧
    (∀ e, ({ canvasBound := true, modelUrl := "model.glb"
             engineFault := some "boom", loadFault := none
             containerNull := false, container := [], normFault := none
             subscribeFault := none, zoomRadius := 0
             zoomTarget := Vec3.zero } : ActivationEnv).engineFault = some e →
      onMount
        { canvasBound := true, modelUrl := "model.glb"
          engineFault := some "boom", loadFault := none
          containerNull := false, container := [], normFault := none
          subscribeFault := none, zoomRadius := 0
          zoomTarget := Vec3.zero } =
        { emptyMount with logs := ["Error loading model: " ++ e] }) ∧
    (∀ e, ({ canvasBound := true, modelUrl := "model.glb"
             engineFault := some "boom", loadFault := none
             containerNull := false, container := [], normFault := none
             subscribeFault := none, zoomRadius := 0
             zoomTarget := Vec3.zero } : ActivationEnv).engineFault = none →
      ({ canvasBound := true, modelUrl := "model.glb"
         engineFault := some "boom", loadFault := none
         containerNull := false, container := [], normFault := none
         subscribeFault := none, zoomRadius := 0
         zoomTarget := Vec3.zero } : ActivationEnv).loadFault = some e →
      onMount
        { canvasBound := true, modelUrl := "model.glb"
          engineFault := some "boom", loadFault := none
          containerNull := false, container := [], normFault := none
          subscribeFault := none, zoomRadius := 0
          zoomTarget := Vec3.zero } =
        { setupState with logs := ["Error loading model: " ++ e] }) ∧
    (({ canvasBound := true, modelUrl := "model.glb"
        engineFault := some "boom", loadFault := none
        containerNull := false, container := [], normFault := none
        subscribeFault := none, zoomRadius := 0
        zoomTarget := Vec3.zero } : ActivationEnv).engineFault = none →
      ({ canvasBound := true, modelUrl := "model.glb"
         engineFault := some "boom", loadFault := none
         containerNull := false, container := [], normFault := none
         subscribeFault := none, zoomRadius := 0
         zoomTarget := Vec3.zero } : ActivationEnv).loadFault = none →
      ({ canvasBound := true, modelUrl := "model.glb"
         engineFault := some "boom", loadFault := none
         containerNull := false, container := [], normFault := none
         subscribeFault := none, zoomRadius := 0
         zoomTarget := Vec3.zero } : ActivationEnv).containerNull = false →
      ({ canvasBound := true, modelUrl := "model.glb"
         engineFault := some "boom", loadFault := none
         containerNull := false, container := [], normFault := none
         subscribeFault := none, zoomRadius := 0
         zoomTarget := Vec3.zero } : ActivationEnv).normFault = none →
      ({ canvasBound := true, modelUrl := "model.glb"
         engineFault := some "boom", loadFault := none
         containerNull := false, container := [], normFault := none
         subscribeFault := none, zoomRadius := 0
         zoomTarget := Vec3.zero } : ActivationEnv).subscribeFault = none →
      (onMount
        { canvasBound := true, modelUrl := "model.glb"
          engineFault := some "boom", loadFault := none
          containerNull := false, container := [], normFault := none
          subscribeFault := none, zoomRadius := 0
          zoomTarget := Vec3.zero }).handleResize = some () ∧
      (onMount
        { canvasBound := true, modelUrl := "model.glb"
          engineFault := some "boom", loadFault := none
          containerNull := false, container := [], normFault := none
          subscribeFault := none, zoomRadius := 0
          zoomTarget := Vec3.zero }).logs = []) :=
  claim_C9
    { canvasBound := true, modelUrl := "model.glb"
      engineFault := some "boom", loadFault := none
      containerNull := false, container := [], normFault := none
      subscribeFault := none, zoomRadius := 0, zoomTarget := Vec3.zero }
    rfl (by simp)

/-- C10: with an unbound canvas or an empty resource locator, activation
returns before the guarded body: no engine, scene, camera, lights, or
subscription is created and nothing is logged. -/
theorem claim_C10 (env : ActivationEnv)
    (h : env.canvasBound = false ∨ env.modelUrl = "") :
    onMount env = emptyMount ∧
    (onMount env).engine = none ∧
    (onMount env).scene = none ∧
    (onMount env).camera = none ∧
    (onMount env).lights = 0 ∧
    (onMount env).handleResize = none ∧
    (onMount env).logs = [] := by
  have hm : onMount env = emptyMount := by
    unfold onMount
    rw [if_pos h]
  rw [hm]
  exact ⟨rfl, rfl, rfl, rfl, rfl, rfl, rfl⟩

/-- C10 witness: an empty resource locator with a bound canvas. -/
theorem claim_C10_witness :
    onMount
      { canvasBound := true, modelUrl := "", engineFault := none
        loadFault := none, containerNull := false, container := []
        normFault := none, subscribeFault := none, zoomRadius := 0
        zoomTarget := Vec3.zero } = emptyMount ∧
    (onMount
      { canvasBound := true, modelUrl := "", engineFault := none
        loadFault := none, containerNull := false, container := []
        normFault := none, subscribeFault := none, zoomRadius := 0
        zoomTarget := Vec3.zero }).engine = none ∧
    (onMount
      { canvasBound := true, modelUrl := "", engineFault := none
        loadFault := none, containerNull := false, container := []
        normFault := none, subscribeFault := none, zoomRadius := 0
        zoomTarget := Vec3.zero }).scene = none ∧
    (onMount
      { canvasBound := true, modelUrl := "", engineFault := none
        loadFault := none, containerNull := false, container := []
        normFault := none, subscribeFault := none, zoomRadius := 0
        zoomTarget := Vec3.zero }).camera = none ∧
    (onMount
      { canvasBound := true, modelUrl := "", engineFault := none
        loadFault := none, containerNull := false, container := []
        normFault := none, subscribeFault := none, zoomRadius := 0
        zoomTarget := Vec3.zero }).lights = 0 ∧
    (onMount
      { canvasBound := true, modelUrl := "", engineFault := none
        loadFault := none, containerNull := false, container := []
        normFault := none, subscribeFault := none, zoomRadius := 0
        zoomTarget := Vec3.zero }).handleResize = none ∧
    (onMount
      { canvasBound := true, modelUrl := "", engineFault := none
        loadFault := none, containerNull := false, container := []
        normFault := none, subscribeFault := none, zoomRadius := 0
        zoomTarget := Vec3.zero }).logs = [] :=
  claim_C10
    { canvasBound := true, modelUrl := "", engineFault := none
      loadFault := none, containerNull := false, container := []
      normFault := none, subscribeFault := none, zoomRadius := 0
      zoomTarget := Vec3.zero }
    (Or.inr rfl)

end ModelViewer
